import Mathlib

/-!
Shallow embedding of the Mopcare API gateway (src/gateway-fiber/main.go).
Time is modelled in seconds as `Nat`; the Go `sync.Map` cache store is an
association list; the per-request environment snapshot is a structure whose
fields mirror the `os.Getenv` calls made by the handler.
-/

/-- Go strings.HasPrefix, via the character list of the string. -/
def strStartsWith (s pat : String) : Bool :=
  pat.data.isPrefixOf s.data

/-- Helper for Go strings.Contains on character lists. -/
def containsAux (pat : List Char) : List Char → Bool
  | [] => pat.isEmpty
  | c :: cs => pat.isPrefixOf (c :: cs) || containsAux pat cs

/-- Go strings.Contains. -/
def strContains (s pat : String) : Bool :=
  containsAux pat.data s.data

/-- Seconds. Go time.Time comparisons become Nat comparisons. -/
abbrev Time := Nat

/-- CacheEntry from main.go: Data string, ExpiresAt time.Time. -/
structure CacheEntry where
  data : String
  expiresAt : Time
deriving Repr, DecidableEq

/-- The sync.Map inside Cache, as an association list keyed by string. -/
abbrev CacheStore := List (String × CacheEntry)

/-- sync.Map Load. -/
def storeLoad (s : CacheStore) (k : String) : Option CacheEntry :=
  match s.find? (fun p => p.1 = k) with
  | some p => some p.2
  | none => none

/-- sync.Map Delete. -/
def storeDelete (s : CacheStore) (k : String) : CacheStore :=
  s.filter (fun p => p.1 ≠ k)

/-- sync.Map Store: replaces any entry under the same key. -/
def storeInsert (s : CacheStore) (k : String) (e : CacheEntry) : CacheStore :=
  (k, e) :: storeDelete s k

/-- The fixed TTL from NewCache: 5 * time.Minute, in seconds. -/
def cacheTTL : Nat := 5 * 60

/-- Cache.Get from main.go: serve while now is strictly before ExpiresAt,
otherwise delete the stale entry and report a miss. Returns the value
(if found) and the store after the lookup. -/
def cacheGet (s : CacheStore) (now : Time) (k : String) :
    Option String × CacheStore :=
  match storeLoad s k with
  | some entry =>
      if now < entry.expiresAt then (some entry.data, s)
      else (none, storeDelete s k)
  | none => (none, s)

/-- Cache.Set from main.go: store the value with expiry now + ttl. -/
def cacheSet (s : CacheStore) (now : Time) (k v : String) : CacheStore :=
  storeInsert s k ⟨v, now + cacheTTL⟩

/-- The Metrics counters together with the cache: the mutable gateway state. -/
structure GatewayState where
  cacheStore : CacheStore
  totalRequests : Nat
  cacheHits : Nat
  cacheMisses : Nat
deriving Repr, DecidableEq

/-- State at process startup: empty cache, all counters zero. -/
def initState : GatewayState := ⟨[], 0, 0, 0⟩

/-- Snapshot of the environment variables the handler reads via os.Getenv;
an unset variable reads as the empty string, as in Go. -/
structure Env where
  courseServiceURL : String
  userServiceURL : String
  enrollmentServiceURL : String
  render : String
deriving Repr, DecidableEq

/-- Environment with every variable unset. -/
def defaultEnv : Env := ⟨"", "", "", ""⟩

/-- The `if url == "" { url = default }` idiom of proxyHandler. -/
def getOr (v d : String) : String :=
  if v = "" then d else v

/-- The three upstream services of the routing chain. -/
inductive Upstream
  | course
  | user
  | enrollment
deriving Repr, DecidableEq

/-- Base URL for an upstream: environment override if set, else the
hard-coded localhost default, exactly as computed in proxyHandler. -/
def baseURL (env : Env) : Upstream → String
  | .course => getOr env.courseServiceURL "http://localhost:8081"
  | .user => getOr env.userServiceURL "http://localhost:8082"
  | .enrollment => getOr env.enrollmentServiceURL "http://localhost:8083"

/-- The routing if-chain of proxyHandler (first match wins). -/
def resolveUpstream (path : String) : Option Upstream :=
  if strStartsWith path "/courses" || strStartsWith path "/series" then
    some .course
  else if strStartsWith path "/users" && !(strContains path "/enrollments") then
    some .user
  else if strContains path "/enrollments" then
    some .enrollment
  else
    none

/-- targetURL as assigned by the routing chain, None when no rule matches. -/
def resolveTarget (env : Env) (path : String) : Option String :=
  (resolveUpstream path).map (baseURL env)

/-- Observable response of the gateway: status and body are None when they
are streamed from the upstream; forwardedTo records the URL of a proxied
request, None when the request was answered locally. -/
structure Response where
  status : Option Nat
  body : Option String
  xCache : Option String
  forwardedTo : Option String
deriving Repr, DecidableEq

/-- The 404 body `fiber.Map(error: Service not found)` as serialized JSON. -/
def serviceNotFoundBody : String := "\x7b\"error\":\"Service not found\"\x7d"

/-- handleMockResponse from main.go: canned bodies for the Render deployment;
every branch answers locally, without cache or X-Cache involvement. -/
def handleMockResponse (path method : String) : Response :=
  if method = "GET" ∧ path = "/courses" then
    ⟨some 200, some "[\x7b\"id\":1,...\x7d,\x7b\"id\":2,...\x7d]", none, none⟩
  else if method = "POST" ∧ path = "/courses" then
    ⟨some 201, some "\x7b\"id\":3,\"title\":\"New Course\",\"message\":\"Course created successfully\"\x7d", none, none⟩
  else if method = "GET" ∧ path = "/users" then
    ⟨some 200, some "[\x7b\"id\":1,\"first_name\":\"Margaret\",...\x7d]", none, none⟩
  else if method = "POST" ∧ path = "/users" then
    ⟨some 201, some "\x7b\"id\":2,\"first_name\":\"New User\",\"message\":\"User created successfully\"\x7d", none, none⟩
  else
    ⟨some 200, some ("\x7b\"message\":\"Mock response for " ++ method ++ " " ++ path ++ "\"\x7d"), none, none⟩

/-- proxyHandler from main.go: increment total, read the three backend URLs
from the environment, short-circuit to the mock responder when RENDER is
set, route, 404 when no rule matches, consult the cache for GET, and
otherwise forward to targetURL + path. -/
def proxyHandler (env : Env) (now : Time) (method path : String)
    (st : GatewayState) : Response × GatewayState :=
  let st1 : GatewayState := { st with totalRequests := st.totalRequests + 1 }
  if env.render ≠ "" then
    (handleMockResponse path method, st1)
  else
    match resolveTarget env path with
    | none => (⟨some 404, some serviceNotFoundBody, none, none⟩, st1)
    | some targetURL =>
        let cacheKey := method ++ ":" ++ path
        if method = "GET" then
          match cacheGet st1.cacheStore now cacheKey with
          | (some cachedData, s) =>
              (⟨some 200, some cachedData, some "HIT", none⟩,
               { st1 with cacheStore := s, cacheHits := st1.cacheHits + 1 })
          | (none, s) =>
              (⟨none, none, some "MISS", some (targetURL ++ path)⟩,
               { st1 with cacheStore := s, cacheMisses := st1.cacheMisses + 1 })
        else
          (⟨none, none, none, some (targetURL ++ path)⟩, st1)

/-- The /health handler body as serialized JSON. -/
def healthBody : String :=
  "\x7b\"status\":\"healthy\",\"service\":\"mopcare-api-gateway\",\"version\":\"1.0.0\"\x7d"

/-- The /metrics handler body: a snapshot of the three counters. -/
def metricsBody (st : GatewayState) : String :=
  "\x7b\"gateway\":\x7b\"total_requests\":" ++ toString st.totalRequests ++
  ",\"cache_hits\":" ++ toString st.cacheHits ++
  ",\"cache_misses\":" ++ toString st.cacheMisses ++ "\x7d\x7d"

/-- The Fiber app: the /health and /metrics routes are registered before
the proxy middleware via app.Get, which in Fiber v2 registers the handler
for HEAD as well as GET; a matching GET or HEAD is answered without
reaching the middleware (the handlers never call Next, and for HEAD Fiber
strips the body on the wire while the handler computes the same response);
every other request falls through to proxyHandler. CaseSensitive and
StrictRouting are on, so the route paths match exactly. -/
def handleRequest (env : Env) (now : Time) (method path : String)
    (st : GatewayState) : Response × GatewayState :=
  if (method = "GET" ∨ method = "HEAD") ∧ path = "/health" then
    (⟨some 200, some healthBody, none, none⟩, st)
  else if (method = "GET" ∨ method = "HEAD") ∧ path = "/metrics" then
    (⟨some 200, some (metricsBody st), none, none⟩, st)
  else
    proxyHandler env now method path st

/-! ## Helper lemmas -/

lemma storeLoad_storeDelete (s : CacheStore) (k : String) :
    storeLoad (storeDelete s k) k = none := by
  unfold storeLoad storeDelete
  induction s with
  | nil => rfl
  | cons a s ih =>
      by_cases h : a.1 = k
      · simpa [h] using ih
      · simpa [List.filter, h, List.find?] using ih

lemma storeLoad_storeInsert (s : CacheStore) (k : String) (e : CacheEntry) :
    storeLoad (storeInsert s k e) k = some e := by
  unfold storeInsert storeLoad
  simp [List.find?]

lemma cacheGet_miss_absent (s : CacheStore) (now : Time) (k : String)
    (s2 : CacheStore) (h : cacheGet s now k = (none, s2)) :
    storeLoad s2 k = none := by
  unfold cacheGet at h
  cases hl : storeLoad s k with
  | none =>
      rw [hl] at h
      cases h
      exact hl
  | some entry =>
      rw [hl] at h
      by_cases ht : now < entry.expiresAt
      · simp [ht] at h
      · simp [ht] at h
        rw [← h]
        exact storeLoad_storeDelete s k

lemma cacheGet_absent (s : CacheStore) (now : Time) (k : String)
    (h : storeLoad s k = none) : cacheGet s now k = (none, s) := by
  unfold cacheGet
  rw [h]

lemma handleMockResponse_xCache (path method : String) :
    (handleMockResponse path method).xCache = none := by
  unfold handleMockResponse
  split_ifs <;> rfl

lemma handleMockResponse_forwardedTo (path method : String) :
    (handleMockResponse path method).forwardedTo = none := by
  unfold handleMockResponse
  split_ifs <;> rfl

/-! ## Claim theorems -/

/-- Claim C1: the upstream resolver is first-match-wins over the four rules:
a path starting with /courses or /series goes to the course backend;
otherwise a path starting with /users and not containing /enrollments goes
to the user backend; otherwise a path containing /enrollments goes to the
enrollment backend; otherwise resolution yields none (NotFound). Being a
function, the resolver assigns exactly one result to every path. -/
theorem resolver_first_match (p : String) :
    (strStartsWith p "/courses" = true ∨ strStartsWith p "/series" = true →
      resolveUpstream p = some Upstream.course) ∧
    (strStartsWith p "/courses" = false → strStartsWith p "/series" = false →
      strStartsWith p "/users" = true → strContains p "/enrollments" = false →
      resolveUpstream p = some Upstream.user) ∧
    (strStartsWith p "/courses" = false → strStartsWith p "/series" = false →
      strContains p "/enrollments" = true →
      resolveUpstream p = some Upstream.enrollment) ∧
    (strStartsWith p "/courses" = false → strStartsWith p "/series" = false →
      strStartsWith p "/users" = false → strContains p "/enrollments" = false →
      resolveUpstream p = none) := by
  unfold resolveUpstream
  refine ⟨?_, ?_, ?_, ?_⟩
  · rintro (h | h) <;> simp [h]
  · intro h1 h2 h3 h4
    simp [h1, h2, h3, h4]
  · intro h1 h2 h3
    simp [h1, h2, h3]
  · intro h1 h2 h3 h4
    simp [h1, h2, h3, h4]

/-- Witness for C1 at the four sample paths of the spec. -/
theorem resolver_first_match_witness :
    resolveUpstream "/courses/1" = some Upstream.course ∧
    resolveUpstream "/users/42" = some Upstream.user ∧
    resolveUpstream "/users/42/enrollments" = some Upstream.enrollment ∧
    resolveUpstream "/unknown" = none :=
  ⟨(resolver_first_match "/courses/1").1 (Or.inl (by decide)),
   (resolver_first_match "/users/42").2.1 (by decide) (by decide) (by decide)
     (by decide),
   (resolver_first_match "/users/42/enrollments").2.2.1 (by decide) (by decide)
     (by decide),
   (resolver_first_match "/unknown").2.2.2 (by decide) (by decide) (by decide)
     (by decide)⟩

/-- Claim C3: immediately after Cache.Set(k, v) at time T, Cache.Get(k) at
any t strictly before T + TTL (5 minutes) returns the value with the store
untouched; at any t with T + TTL ≤ t the lookup misses and the expired
entry is removed from the store by that lookup. -/
theorem cache_ttl_get (store : CacheStore) (T t : Time) (k v : String) :
    (t < T + cacheTTL →
      cacheGet (cacheSet store T k v) t k = (some v, cacheSet store T k v)) ∧
    (T + cacheTTL ≤ t →
      (cacheGet (cacheSet store T k v) t k).1 = none ∧
      storeLoad (cacheGet (cacheSet store T k v) t k).2 k = none) := by
  have hload : storeLoad (cacheSet store T k v) k =
      some ⟨v, T + cacheTTL⟩ := storeLoad_storeInsert store k _
  constructor
  · intro h
    unfold cacheGet
    rw [hload]
    simp [h]
  · intro h
    unfold cacheGet
    rw [hload]
    simp [Nat.not_lt.mpr h, storeLoad_storeDelete]

/-- Witness for C3: set at T = 0, a read at 299 s hits, a read at 300 s
(five minutes sharp) misses. -/
theorem cache_ttl_get_witness :
    cacheGet (cacheSet [] 0 "GET:/courses" "X") 299 "GET:/courses" =
      (some "X", cacheSet [] 0 "GET:/courses" "X") ∧
    (cacheGet (cacheSet [] 0 "GET:/courses" "X") 300 "GET:/courses").1 =
      none :=
  ⟨(cache_ttl_get [] 0 299 "GET:/courses" "X").1 (by decide),
   ((cache_ttl_get [] 0 300 "GET:/courses" "X").2 (by decide)).1⟩

/-- Claim C6: a request that reaches the proxy middleware (RENDER unset)
whose path matches no routing rule is answered 404 with exactly the
serialized body of fiber.Map error: Service not found, is not forwarded,
carries no X-Cache header, and changes neither the cache nor the hit/miss
counters (only the total counter is incremented). -/
theorem notfound_404 (env : Env) (now : Time) (method path : String)
    (st : GatewayState) (hr : env.render = "")
    (hn : resolveUpstream path = none) :
    proxyHandler env now method path st =
      (⟨some 404, some serviceNotFoundBody, none, none⟩,
       { st with totalRequests := st.totalRequests + 1 }) := by
  unfold proxyHandler resolveTarget
  simp [hr, hn]

/-- Witness for C6: a DELETE to an unrouted path in the default environment. -/
theorem notfound_404_witness :
    proxyHandler defaultEnv 0 "DELETE" "/unknown" initState =
      (⟨some 404, some serviceNotFoundBody, none, none⟩,
       { initState with totalRequests := initState.totalRequests + 1 }) :=
  notfound_404 defaultEnv 0 "DELETE" "/unknown" initState rfl (by decide)

lemma get_cache_branches (env : Env) (now : Time) (path : String)
    (st : GatewayState) (base : String) (hr : env.render = "")
    (hb : resolveTarget env path = some base) :
    (∀ v s, cacheGet st.cacheStore now ("GET" ++ ":" ++ path) = (some v, s) →
      proxyHandler env now "GET" path st =
        (⟨some 200, some v, some "HIT", none⟩,
         { st with cacheStore := s, totalRequests := st.totalRequests + 1,
                   cacheHits := st.cacheHits + 1 })) ∧
    (∀ s, cacheGet st.cacheStore now ("GET" ++ ":" ++ path) = (none, s) →
      proxyHandler env now "GET" path st =
        (⟨none, none, some "MISS", some (base ++ path)⟩,
         { st with cacheStore := s, totalRequests := st.totalRequests + 1,
                   cacheMisses := st.cacheMisses + 1 })) := by
  constructor
  · intro v s h
    have h2 : cacheGet st.cacheStore now ("GET:" ++ path) = (some v, s) := h
    unfold proxyHandler
    simp [hr, hb, h2]
  · intro s h
    have h2 : cacheGet st.cacheStore now ("GET:" ++ path) = (none, s) := h
    unfold proxyHandler
    simp [hr, hb, h2]

/-- Claim C2: for a GET request that reaches the proxy middleware and
routes to an upstream, the dispatcher queries the cache under the key
method ++ ":" ++ path; on a hit it increments the hit counter, answers
200 with the cached body, X-Cache HIT, and does not forward; on a miss it
increments the miss counter, sets X-Cache MISS, and forwards to the
resolved upstream. -/
theorem get_dispatch_cache (env : Env) (now : Time) (path : String)
    (st : GatewayState) (base : String) (hr : env.render = "")
    (hb : resolveTarget env path = some base) :
    (∀ v s, cacheGet st.cacheStore now ("GET" ++ ":" ++ path) = (some v, s) →
      proxyHandler env now "GET" path st =
        (⟨some 200, some v, some "HIT", none⟩,
         { st with cacheStore := s, totalRequests := st.totalRequests + 1,
                   cacheHits := st.cacheHits + 1 })) ∧
    (∀ s, cacheGet st.cacheStore now ("GET" ++ ":" ++ path) = (none, s) →
      proxyHandler env now "GET" path st =
        (⟨none, none, some "MISS", some (base ++ path)⟩,
         { st with cacheStore := s, totalRequests := st.totalRequests + 1,
                   cacheMisses := st.cacheMisses + 1 })) :=
  get_cache_branches env now path st base hr hb

/-- Witness for C2: a warm cache serves GET /courses as a HIT without
forwarding and bumps the hit counter. -/
theorem get_dispatch_cache_witness :
    proxyHandler defaultEnv 10 "GET" "/courses"
        ⟨cacheSet [] 0 "GET:/courses" "X", 5, 1, 2⟩ =
      (⟨some 200, some "X", some "HIT", none⟩,
       ⟨cacheSet [] 0 "GET:/courses" "X", 6, 2, 2⟩) :=
  (get_dispatch_cache defaultEnv 10 "/courses"
      ⟨cacheSet [] 0 "GET:/courses" "X", 5, 1, 2⟩
      "http://localhost:8081" rfl (by decide)).1
    "X" (cacheSet [] 0 "GET:/courses" "X") (by decide)

/-- Claim C9: a request whose method is not GET never reads or writes the
response cache, changes neither the hit nor the miss counter, and its
response carries no X-Cache header — this holds on every branch of the
app (health, metrics, mock, 404, forward). -/
theorem nonget_cache_frame (env : Env) (now : Time) (method path : String)
    (st : GatewayState) (h : method ≠ "GET") :
    (handleRequest env now method path st).2.cacheStore = st.cacheStore ∧
    (handleRequest env now method path st).2.cacheHits = st.cacheHits ∧
    (handleRequest env now method path st).2.cacheMisses = st.cacheMisses ∧
    (handleRequest env now method path st).1.xCache = none := by
  unfold handleRequest
  split_ifs with h1 h2
  · exact ⟨rfl, rfl, rfl, rfl⟩
  · exact ⟨rfl, rfl, rfl, rfl⟩
  · unfold proxyHandler
    by_cases hr : env.render = ""
    · cases ht : resolveTarget env path with
      | none => simp [hr, ht]
      | some base => simp [hr, ht, h]
    · simp [hr, handleMockResponse_xCache]

/-- Witness for C9: a POST to a routed path leaves cache and hit/miss
counters untouched and sets no X-Cache header. -/
theorem nonget_cache_frame_witness :
    (handleRequest defaultEnv 0 "POST" "/courses" initState).2.cacheStore =
      initState.cacheStore ∧
    (handleRequest defaultEnv 0 "POST" "/courses" initState).2.cacheHits =
      initState.cacheHits ∧
    (handleRequest defaultEnv 0 "POST" "/courses" initState).2.cacheMisses =
      initState.cacheMisses ∧
    (handleRequest defaultEnv 0 "POST" "/courses" initState).1.xCache =
      none :=
  nonget_cache_frame defaultEnv 0 "POST" "/courses" initState (by decide)

/-- Claim C10: with RENDER non-empty, every request reaching the proxy
handler is answered by the mock responder right after the total-requests
increment: the state changes only by that increment (no cache read or
write, no hit/miss change), the response has no X-Cache header and is not
forwarded, and a path matching no routing rule still gets status 200
rather than the 404 error. -/
theorem render_mock_bypass (env : Env) (now : Time) (method path : String)
    (st : GatewayState) (hr : env.render ≠ "") :
    proxyHandler env now method path st =
      (handleMockResponse path method,
       { st with totalRequests := st.totalRequests + 1 }) ∧
    (handleMockResponse path method).xCache = none ∧
    (handleMockResponse path method).forwardedTo = none ∧
    (resolveUpstream path = none →
      (handleMockResponse path method).status = some 200) := by
  refine ⟨?_, handleMockResponse_xCache path method,
    handleMockResponse_forwardedTo path method, ?_⟩
  · unfold proxyHandler
    simp [hr]
  · intro hn
    unfold handleMockResponse
    split_ifs with h1 h2 h3 h4
    · rfl
    · rw [h2.2] at hn
      exact absurd hn (by decide)
    · rfl
    · rw [h4.2] at hn
      exact absurd hn (by decide)
    · rfl

/-- Witness for C10: under RENDER, a DELETE to an unrouted path is a 200
mock answer and only the total counter moves. -/
theorem render_mock_bypass_witness :
    proxyHandler ⟨"", "", "", "true"⟩ 0 "DELETE" "/unknown" initState =
      (handleMockResponse "/unknown" "DELETE",
       { initState with totalRequests := initState.totalRequests + 1 }) ∧
    (handleMockResponse "/unknown" "DELETE").xCache = none ∧
    (handleMockResponse "/unknown" "DELETE").forwardedTo = none ∧
    (resolveUpstream "/unknown" = none →
      (handleMockResponse "/unknown" "DELETE").status = some 200) :=
  render_mock_bypass ⟨"", "", "", "true"⟩ 0 "DELETE" "/unknown" initState
    (by decide)

/-- States of the gateway process: the startup state, closed under handling
one more request (any environment snapshot, time, method and path). -/
inductive Reachable : GatewayState → Prop
  | init : Reachable initState
  | step (env : Env) (now : Time) (method path : String) {st : GatewayState} :
      Reachable st → Reachable (handleRequest env now method path st).2

lemma proxyHandler_step (env : Env) (now : Time) (method path : String)
    (st : GatewayState) :
    (proxyHandler env now method path st).2.totalRequests =
      st.totalRequests + 1 ∧
    ((proxyHandler env now method path st).2.cacheHits = st.cacheHits ∧
       (proxyHandler env now method path st).2.cacheMisses = st.cacheMisses ∨
     (proxyHandler env now method path st).2.cacheHits = st.cacheHits + 1 ∧
       (proxyHandler env now method path st).2.cacheMisses = st.cacheMisses ∨
     (proxyHandler env now method path st).2.cacheHits = st.cacheHits ∧
       (proxyHandler env now method path st).2.cacheMisses =
         st.cacheMisses + 1) ∧
    (¬((proxyHandler env now method path st).2.cacheHits = st.cacheHits ∧
        (proxyHandler env now method path st).2.cacheMisses = st.cacheMisses) →
      method = "GET" ∧ env.render = "" ∧ resolveUpstream path ≠ none) := by
  by_cases hr : env.render = ""
  · cases ht : resolveTarget env path with
    | none =>
        unfold proxyHandler
        simp [hr, ht]
    | some base =>
        by_cases hm : method = "GET"
        · subst hm
          rcases hg : cacheGet st.cacheStore now ("GET:" ++ path) with ⟨o, s⟩
          have hne : resolveUpstream path ≠ none := by
            intro hn
            rw [resolveTarget, hn] at ht
            cases ht
          unfold proxyHandler
          cases o <;> simp [hr, ht, hg, hne]
        · unfold proxyHandler
          simp [hr, ht, hm]
  · unfold proxyHandler
    simp [hr]

/-- Claim C4: in every reachable state, total requests is at least cache
hits plus cache misses; moreover each request through the proxy handler
adds one to the total and at most one to one of hit/miss, and the hit or
miss counters move only for a GET that resolved to a known route with
RENDER unset. -/
theorem metrics_invariant :
    (∀ st : GatewayState, Reachable st →
      st.cacheHits + st.cacheMisses ≤ st.totalRequests) ∧
    (∀ (env : Env) (now : Time) (method path : String) (st : GatewayState),
      (proxyHandler env now method path st).2.totalRequests =
        st.totalRequests + 1 ∧
      (¬((proxyHandler env now method path st).2.cacheHits = st.cacheHits ∧
          (proxyHandler env now method path st).2.cacheMisses =
            st.cacheMisses) →
        method = "GET" ∧ env.render = "" ∧ resolveUpstream path ≠ none)) := by
  constructor
  · intro st h
    induction h with
    | init => exact Nat.le_refl 0
    | step env now method path hst ih =>
        rename_i st0
        unfold handleRequest
        split_ifs with h1 h2
        · exact ih
        · exact ih
        · obtain ⟨ht, hd, _⟩ := proxyHandler_step env now method path st0
          rcases hd with ⟨hh, hm⟩ | ⟨hh, hm⟩ | ⟨hh, hm⟩ <;>
            rw [ht, hh, hm] <;> omega
  · intro env now method path st
    obtain ⟨ht, _, honly⟩ := proxyHandler_step env now method path st
    exact ⟨ht, honly⟩

/-- Witness for C4 at the state after one GET /courses from startup. -/
theorem metrics_invariant_witness :
    (handleRequest defaultEnv 0 "GET" "/courses" initState).2.cacheHits +
      (handleRequest defaultEnv 0 "GET" "/courses" initState).2.cacheMisses ≤
      (handleRequest defaultEnv 0 "GET" "/courses" initState).2.totalRequests :=
  metrics_invariant.1 _
    (Reachable.step defaultEnv 0 "GET" "/courses" Reachable.init)

/-- Counterexample to C5: handling GET /courses on an empty cache (a miss
that is forwarded upstream) stores nothing — the cache is still empty
afterwards — and the identical GET one minute later (well within the TTL)
is another MISS that is forwarded again, not a HIT. -/
theorem forward_no_populate_cex :
    (handleRequest defaultEnv 0 "GET" "/courses" initState).2.cacheStore =
      [] ∧
    (handleRequest defaultEnv 60 "GET" "/courses"
        (handleRequest defaultEnv 0 "GET" "/courses" initState).2).1.xCache =
      some "MISS" ∧
    (handleRequest defaultEnv 60 "GET" "/courses"
        (handleRequest defaultEnv 0 "GET" "/courses" initState).2).1.forwardedTo =
      some "http://localhost:8081/courses" := by
  refine ⟨rfl, rfl, rfl⟩

/-- C5 as amended: the forwarding path never populates the cache. After a
GET that reaches the proxy middleware, routes, and misses, the cache holds
no entry for that request key, and the identical GET at any later time is
again answered with X-Cache MISS and forwarded to the same upstream. -/
theorem forward_no_populate (env : Env) (now now2 : Time) (path : String)
    (st : GatewayState) (base : String) (hr : env.render = "")
    (hb : resolveTarget env path = some base)
    (hmiss : (proxyHandler env now "GET" path st).1.xCache = some "MISS") :
    storeLoad (proxyHandler env now "GET" path st).2.cacheStore
      ("GET" ++ ":" ++ path) = none ∧
    (proxyHandler env now2 "GET" path
        (proxyHandler env now "GET" path st).2).1.xCache = some "MISS" ∧
    (proxyHandler env now2 "GET" path
        (proxyHandler env now "GET" path st).2).1.forwardedTo =
      some (base ++ path) := by
  rcases hg : cacheGet st.cacheStore now ("GET:" ++ path) with ⟨o, s⟩
  cases o with
  | some v =>
      have := ((get_cache_branches env now path st base hr hb).1 v s hg)
      rw [this] at hmiss
      simp at hmiss
  | none =>
      have h1 := (get_cache_branches env now path st base hr hb).2 s hg
      rw [h1]
      have habsent : storeLoad s ("GET:" ++ path) = none :=
        cacheGet_miss_absent st.cacheStore now ("GET:" ++ path) s hg
      have hmiss2 : cacheGet s now2 ("GET:" ++ path) = (none, s) :=
        cacheGet_absent s now2 ("GET:" ++ path) habsent
      have h2 := (get_cache_branches env now2 path
        { st with cacheStore := s, totalRequests := st.totalRequests + 1,
                  cacheMisses := st.cacheMisses + 1 } base hr hb).2 s hmiss2
      rw [h2]
      exact ⟨habsent, rfl, rfl⟩

/-- Witness for the amended C5 from the empty cache at startup. -/
theorem forward_no_populate_witness :
    storeLoad (proxyHandler defaultEnv 0 "GET" "/courses" initState).2.cacheStore
      ("GET" ++ ":" ++ "/courses") = none ∧
    (proxyHandler defaultEnv 60 "GET" "/courses"
        (proxyHandler defaultEnv 0 "GET" "/courses" initState).2).1.xCache =
      some "MISS" ∧
    (proxyHandler defaultEnv 60 "GET" "/courses"
        (proxyHandler defaultEnv 0 "GET" "/courses" initState).2).1.forwardedTo =
      some ("http://localhost:8081" ++ "/courses") :=
  forward_no_populate defaultEnv 0 60 "/courses" initState
    "http://localhost:8081" rfl (by decide) (by decide)

/-- An environment in which COURSE_SERVICE_URL has been set. -/
def envOverride : Env := ⟨"http://course.internal:9000", "", "", ""⟩

/-- Counterexample to C7: the handler reads the backend URLs from the
environment on every request (main.go lines 125 to 136 are inside
proxyHandler), so two requests for the same path within one run are
forwarded to different base URLs when the environment snapshot seen by the
handler differs — impossible if the URL were resolved once at startup. -/
theorem env_reread_cex :
    (proxyHandler defaultEnv 0 "POST" "/courses" initState).1.forwardedTo ≠
    (proxyHandler envOverride 1 "POST" "/courses"
        (proxyHandler defaultEnv 0 "POST" "/courses" initState).2).1.forwardedTo := by
  decide

/-- C7 as amended: the backend base URL is recomputed inside the proxy
handler on every request, as the environment override when non-empty and
the hard default otherwise; consequently the forward target is a function
of the environment snapshot and the path alone, so two requests with the
same path under an unchanged environment forward to the same URL. -/
theorem target_from_env :
    (∀ env : Env,
      (env.courseServiceURL ≠ "" →
        baseURL env Upstream.course = env.courseServiceURL) ∧
      (env.courseServiceURL = "" →
        baseURL env Upstream.course = "http://localhost:8081") ∧
      (env.userServiceURL ≠ "" →
        baseURL env Upstream.user = env.userServiceURL) ∧
      (env.userServiceURL = "" →
        baseURL env Upstream.user = "http://localhost:8082") ∧
      (env.enrollmentServiceURL ≠ "" →
        baseURL env Upstream.enrollment = env.enrollmentServiceURL) ∧
      (env.enrollmentServiceURL = "" →
        baseURL env Upstream.enrollment = "http://localhost:8083")) ∧
    (∀ (env : Env) (now : Time) (method path : String) (st : GatewayState)
        (u : String),
      (proxyHandler env now method path st).1.forwardedTo = some u →
      ∃ base, resolveTarget env path = some base ∧ u = base ++ path) := by
  constructor
  · intro env
    refine ⟨?_, ?_, ?_, ?_, ?_, ?_⟩ <;> intro h <;> simp [baseURL, getOr, h]
  · intro env now method path st u hu
    by_cases hr : env.render = ""
    · cases ht : resolveTarget env path with
      | none =>
          unfold proxyHandler at hu
          simp [hr, ht] at hu
      | some base =>
          refine ⟨base, rfl, ?_⟩
          by_cases hm : method = "GET"
          · subst hm
            rcases hg : cacheGet st.cacheStore now ("GET:" ++ path)
              with ⟨o, s⟩
            cases o with
            | some v =>
                have := ((get_cache_branches env now path st base hr ht).1
                  v s hg)
                rw [this] at hu
                simp at hu
            | none =>
                have := ((get_cache_branches env now path st base hr ht).2
                  s hg)
                rw [this] at hu
                simpa using hu.symm
          · unfold proxyHandler at hu
            simp [hr, ht, hm] at hu
            exact hu.symm
    · unfold proxyHandler at hu
      simp [hr, handleMockResponse_forwardedTo] at hu

/-- Witness for the amended C7: the first forwarded request of a run. -/
theorem target_from_env_witness :
    ∃ base, resolveTarget defaultEnv "/courses" = some base ∧
      "http://localhost:8081/courses" = base ++ "/courses" :=
  target_from_env.2 defaultEnv 0 "POST" "/courses" initState
    "http://localhost:8081/courses" (by decide)

/-- Counterexample to C8: the /health and /metrics route handlers are
registered before the proxy middleware (by app.Get, hence for HEAD as well
as GET) and answer without reaching it, so a GET or HEAD to either path
never increments the total-requests counter. -/
theorem health_no_increment_cex :
    (handleRequest defaultEnv 0 "GET" "/health" initState).2.totalRequests =
      initState.totalRequests ∧
    (handleRequest defaultEnv 0 "GET" "/metrics" initState).2.totalRequests =
      initState.totalRequests ∧
    (handleRequest defaultEnv 0 "HEAD" "/health" initState).2.totalRequests =
      initState.totalRequests ∧
    (handleRequest defaultEnv 0 "HEAD" "/metrics" initState).2.totalRequests =
      initState.totalRequests := by
  refine ⟨rfl, rfl, rfl, rfl⟩

/-- C8 as amended: every inbound request that is not intercepted by the
/health or /metrics routes (which app.Get registers for both GET and
HEAD) reaches the proxy middleware and increments the total-requests
counter by exactly one, regardless of method, path, routing outcome or
RENDER. -/
theorem total_increment (env : Env) (now : Time) (method path : String)
    (st : GatewayState)
    (h1 : ¬((method = "GET" ∨ method = "HEAD") ∧ path = "/health"))
    (h2 : ¬((method = "GET" ∨ method = "HEAD") ∧ path = "/metrics")) :
    (handleRequest env now method path st).2.totalRequests =
      st.totalRequests + 1 := by
  unfold handleRequest
  rw [if_neg h1, if_neg h2]
  exact (proxyHandler_step env now method path st).1

/-- Witness for the amended C8: a request to an unrouted path. -/
theorem total_increment_witness :
    (handleRequest defaultEnv 0 "DELETE" "/unknown" initState).2.totalRequests =
      initState.totalRequests + 1 :=
  total_increment defaultEnv 0 "DELETE" "/unknown" initState (by decide)
    (by decide)
